import Mathlib

/-!
Shallow embedding of `src/Physics/ShaderTypes.h` from the Physics repository.

The header declares a single plain-old-data aggregate, `Uniforms`, shared
between host code and a Metal shader stage:

  typedef struct {
      matrix_float4x4 projectionMatrix;
      matrix_float4x4 modelViewMatrix;
      vector_float4   color;
  } Uniforms;

No arithmetic is ever performed on the stored values by this header, so a
single-precision floating-point value is modelled by its 32-bit bit pattern;
`vector_float4` and `matrix_float4x4` follow their definitions in the vendor
header `simd/simd.h` (a 4-component vector of 32-bit floats, and a matrix of
four such column vectors, stored column-major).
-/

/-- A single-precision (32-bit) IEEE-754 value, modelled by its bit pattern:
one of the 2^32 possible 32-bit words. The header only stores such values and
never computes with them, so identity of bit patterns is all that matters. -/
abbrev Float32 : Type := Fin (2 ^ 32)

/-- The all-zero 32-bit pattern (+0.0f). -/
def f32zero : Float32 := ⟨0, by norm_num⟩

/-- `vector_float4` from `simd/simd.h`: four packed `Float32` components. -/
structure vector_float4 where
  x : Float32
  y : Float32
  z : Float32
  w : Float32

/-- `matrix_float4x4` from `simd/simd.h`: four `vector_float4` columns, i.e. a
4×4 single-precision matrix stored column-major. -/
structure matrix_float4x4 where
  columns : Fin 4 → vector_float4

/-- The struct `Uniforms` declared in `ShaderTypes.h`, lines 16–20: exactly
the three fields `projectionMatrix`, `modelViewMatrix`, `color`, in that
order. -/
structure Uniforms where
  projectionMatrix : matrix_float4x4
  modelViewMatrix : matrix_float4x4
  color : vector_float4

/-! ### Declaration-level view of the header

`ShaderTypes.h` contains (besides the include guard and the `#include` of
`simd/simd.h`) exactly one top-level declaration: the `typedef struct`
above. We record the file's declarations as data so that claims about what
the file does and does not declare can be stated. -/

/-- The two `simd` types a field of this header can have. -/
inductive CType where
  | matrixFloat4x4 : CType
  | vectorFloat4 : CType
deriving DecidableEq

/-- A top-level C declaration, as far as this header is concerned: a struct
declaration with named fields, a function declaration, or an enum. -/
inductive CDecl where
  | structDecl (name : String) (fields : List (String × CType)) : CDecl
  | funDecl (name : String) : CDecl
  | enumDecl (name : String) : CDecl
deriving DecidableEq

/-- `true` exactly on struct declarations. -/
def CDecl.isStruct : CDecl → Bool
  | .structDecl _ _ => true
  | _ => false

/-- The field list of the `Uniforms` struct, in source order. -/
def Uniforms_fields : List (String × CType) :=
  [("projectionMatrix", CType.matrixFloat4x4),
   ("modelViewMatrix", CType.matrixFloat4x4),
   ("color", CType.vectorFloat4)]

/-- Every top-level declaration of `ShaderTypes.h`, in source order. -/
def ShaderTypes_h_decls : List CDecl :=
  [CDecl.structDecl "Uniforms" Uniforms_fields]

/-! ### Memory layout

The C/Metal struct layout rules: each field is placed at the next offset
aligned to the field's alignment; the struct's alignment is the maximum of
the field alignments; the struct's size is the end of the last field rounded
up to the struct's alignment. -/

/-- Size and alignment, in bytes, of one field's type. -/
structure FieldLayout where
  size : Nat
  align : Nat
deriving DecidableEq

/-- Round `off` up to the next multiple of `a`. -/
def alignUp (off a : Nat) : Nat := ((off + a - 1) / a) * a

/-- Offsets assigned to the fields of a struct whose layout starts at `off`. -/
def layoutOffsets : Nat → List FieldLayout → List Nat
  | _, [] => []
  | off, f :: fs =>
    let o := alignUp off f.align
    o :: layoutOffsets (o + f.size) fs

/-- The first free byte after laying out the fields starting at `off`. -/
def layoutEnd : Nat → List FieldLayout → Nat
  | off, [] => off
  | off, f :: fs => layoutEnd (alignUp off f.align + f.size) fs

/-- Alignment of a struct: the maximum alignment among its fields. -/
def structAlign (fs : List FieldLayout) : Nat :=
  fs.foldr (fun f acc => max f.align acc) 1

/-- Size of a struct: the end of its last field, rounded up to its
alignment. -/
def structSize (fs : List FieldLayout) : Nat :=
  alignUp (layoutEnd 0 fs) (structAlign fs)

/-- Layout of `vector_float4` per `simd/simd.h`: 16 bytes, 16-byte aligned. -/
def vector_float4_layout : FieldLayout := ⟨16, 16⟩

/-- Layout of `matrix_float4x4` per `simd/simd.h`: four 16-byte columns, so
64 bytes, 16-byte aligned. -/
def matrix_float4x4_layout : FieldLayout := ⟨64, 16⟩

/-- The field layouts of `Uniforms`, in source order. -/
def Uniforms_layout : List FieldLayout :=
  [matrix_float4x4_layout, matrix_float4x4_layout, vector_float4_layout]

/-- Modelled from the spec: the shader-side declaration of the uniform block
is not part of the supplied source; the spec states it has the same three
fields in the same order, with Metal's `float4x4` and `float4` having the
same 64/16-byte sizes and 16-byte alignment as their `simd` counterparts. -/
def ShaderSide_Uniforms_layout : List FieldLayout :=
  [⟨64, 16⟩, ⟨64, 16⟩, ⟨16, 16⟩]

/-! ### Operations

The header declares no functions; the only operations a consumer has are the
ones C gives every plain struct: construction, reading a field, writing a
field, and whole-value assignment. A read is modelled with explicit state
passing (it returns the value read together with the instance after the
read), so that freedom from side effects is a theorem rather than a
convention. -/

/-- Aggregate construction of a `Uniforms` value from its three fields. -/
def mkUniforms (p m : matrix_float4x4) (c : vector_float4) : Uniforms :=
  ⟨p, m, c⟩

/-- Read `u.projectionMatrix`: the value read, and the instance afterwards. -/
def readProjectionMatrix (u : Uniforms) : matrix_float4x4 × Uniforms :=
  (u.projectionMatrix, u)

/-- Read `u.modelViewMatrix`: the value read, and the instance afterwards. -/
def readModelViewMatrix (u : Uniforms) : matrix_float4x4 × Uniforms :=
  (u.modelViewMatrix, u)

/-- Read `u.color`: the value read, and the instance afterwards. -/
def readColor (u : Uniforms) : vector_float4 × Uniforms :=
  (u.color, u)

/-- Write `p` into `u.projectionMatrix`. -/
def writeProjectionMatrix (u : Uniforms) (p : matrix_float4x4) : Uniforms :=
  { u with projectionMatrix := p }

/-- Write `m` into `u.modelViewMatrix`. -/
def writeModelViewMatrix (u : Uniforms) (m : matrix_float4x4) : Uniforms :=
  { u with modelViewMatrix := m }

/-- Write `c` into `u.color`. -/
def writeColor (u : Uniforms) (c : vector_float4) : Uniforms :=
  { u with color := c }

/-- The three fields of a `Uniforms` value, as a triple. -/
def uniformsToTriple (u : Uniforms) :
    matrix_float4x4 × matrix_float4x4 × vector_float4 :=
  (u.projectionMatrix, u.modelViewMatrix, u.color)

/-! ### Value (copy) semantics

C struct assignment copies the aggregate. Aliasing questions are modelled by
a state holding two distinct variables `a b : Uniforms`; assignment and
per-variable mutation act on that state. -/

/-- Two distinct `Uniforms` variables, as in `Uniforms a, b;`. -/
structure TwoVars where
  a : Uniforms
  b : Uniforms

/-- The C assignment `b = a;`. -/
def assignBfromA (s : TwoVars) : TwoVars := { s with b := s.a }

/-- Mutate variable `a` in place with the field update `f`. -/
def mutateA (s : TwoVars) (f : Uniforms → Uniforms) : TwoVars :=
  { s with a := f s.a }

/-- Mutate variable `b` in place with the field update `f`. -/
def mutateB (s : TwoVars) (f : Uniforms → Uniforms) : TwoVars :=
  { s with b := f s.b }

/-- A concrete all-zero vector, for witnesses. -/
def zeroVec : vector_float4 := ⟨f32zero, f32zero, f32zero, f32zero⟩

/-- A concrete all-zero matrix, for witnesses. -/
def zeroMat : matrix_float4x4 := ⟨fun _ => zeroVec⟩

/-- A concrete `Uniforms` value, for witnesses. -/
def sampleUniforms : Uniforms := mkUniforms zeroMat zeroMat zeroVec

/-! ### Theorems -/

/-- Claim C1: `Uniforms` is an aggregate of exactly three fields, in this
order: `projectionMatrix` (4×4 column-major `Float32` matrix),
`modelViewMatrix` (likewise), and `color` (4-component `Float32` vector),
and no others: its declared field list is exactly those three, and the map
sending a `Uniforms` value to the triple of its three fields is a bijection,
so the three fields jointly determine the value and carry all its content. -/
theorem uniforms_exactly_three_fields :
    Uniforms_fields =
      [("projectionMatrix", CType.matrixFloat4x4),
       ("modelViewMatrix", CType.matrixFloat4x4),
       ("color", CType.vectorFloat4)] ∧
    Uniforms_fields.length = 3 ∧
    Function.Bijective uniformsToTriple := by
  refine ⟨rfl, rfl, ?_, ?_⟩
  · intro u v h
    cases u
    cases v
    simp_all [uniformsToTriple]
  · intro t
    exact ⟨⟨t.1, t.2.1, t.2.2⟩, rfl⟩

/-- Claim C2: with `matrix_float4x4` occupying 64 bytes at 16-byte alignment
and `vector_float4` 16 bytes at 16-byte alignment (as in `simd/simd.h`), the
C layout rules place the fields of `Uniforms` at offsets 0, 64 and 128, give
it size 144 and alignment 16 with no padding between or after the fields
(each offset is the running sum of the preceding sizes and the unpadded end,
144, already equals the final size), and the layout coincides, field for
field, with the shader-side declaration of the same three fields. -/
theorem uniforms_layout_fixed :
    layoutOffsets 0 Uniforms_layout = [0, 64, 128] ∧
    structSize Uniforms_layout = 144 ∧
    structAlign Uniforms_layout = 16 ∧
    matrix_float4x4_layout = ⟨64, 16⟩ ∧
    vector_float4_layout = ⟨16, 16⟩ ∧
    layoutOffsets 0 Uniforms_layout = [0, 0 + 64, 0 + 64 + 64] ∧
    layoutEnd 0 Uniforms_layout = 0 + 64 + 64 + 16 ∧
    layoutEnd 0 Uniforms_layout = structSize Uniforms_layout ∧
    Uniforms_layout = ShaderSide_Uniforms_layout ∧
    layoutOffsets 0 ShaderSide_Uniforms_layout = [0, 64, 128] ∧
    structSize ShaderSide_Uniforms_layout = 144 := by
  decide

/-- Claim C3: writing `p`, `m`, `c` into the three fields of any `Uniforms`
instance and reading each field back yields exactly `p`, `m`, `c`. -/
theorem uniforms_write_read_roundtrip (u : Uniforms) (p m : matrix_float4x4)
    (c : vector_float4) :
    (readProjectionMatrix
      (writeColor (writeModelViewMatrix (writeProjectionMatrix u p) m) c)).1
        = p ∧
    (readModelViewMatrix
      (writeColor (writeModelViewMatrix (writeProjectionMatrix u p) m) c)).1
        = m ∧
    (readColor
      (writeColor (writeModelViewMatrix (writeProjectionMatrix u p) m) c)).1
        = c :=
  ⟨rfl, rfl, rfl⟩

/-- Claim C4: every operation on `Uniforms` — construction, and reading or
writing any of the three fields — is total: for every input it produces a
result, with no error branch or failure condition. -/
theorem uniforms_operations_total (u : Uniforms) (p m : matrix_float4x4)
    (c : vector_float4) :
    (∃ v, mkUniforms p m c = v) ∧
    (∃ r, readProjectionMatrix u = r) ∧
    (∃ r, readModelViewMatrix u = r) ∧
    (∃ r, readColor u = r) ∧
    (∃ v, writeProjectionMatrix u p = v) ∧
    (∃ v, writeModelViewMatrix u m = v) ∧
    (∃ v, writeColor u c = v) :=
  ⟨⟨_, rfl⟩, ⟨_, rfl⟩, ⟨_, rfl⟩, ⟨_, rfl⟩, ⟨_, rfl⟩, ⟨_, rfl⟩, ⟨_, rfl⟩⟩

/-- Claim C5: `ShaderTypes.h` contains exactly one top-level declaration, the
struct `Uniforms` with its three fields, and in particular declares no
function and no enum: every declaration in the file is a struct declaration,
and none is a function or enum declaration of any name. -/
theorem shadertypes_h_single_struct :
    ShaderTypes_h_decls = [CDecl.structDecl "Uniforms" Uniforms_fields] ∧
    ShaderTypes_h_decls.length = 1 ∧
    ShaderTypes_h_decls.all CDecl.isStruct = true ∧
    (∀ d ∈ ShaderTypes_h_decls, ∀ n : String,
      d ≠ CDecl.funDecl n ∧ d ≠ CDecl.enumDecl n) := by
  refine ⟨rfl, rfl, rfl, ?_⟩
  intro d hd n
  simp only [ShaderTypes_h_decls, List.mem_singleton] at hd
  subst hd
  exact ⟨by simp, by simp⟩

/-- Claim C6: reading any field of a `Uniforms` instance leaves the instance
unchanged, and a repeated read of the same field after a read returns the
same value as the first read. -/
theorem uniforms_read_side_effect_free (u : Uniforms) :
    (readProjectionMatrix u).2 = u ∧
    (readModelViewMatrix u).2 = u ∧
    (readColor u).2 = u ∧
    (readProjectionMatrix (readProjectionMatrix u).2).1
      = (readProjectionMatrix u).1 ∧
    (readModelViewMatrix (readModelViewMatrix u).2).1
      = (readModelViewMatrix u).1 ∧
    (readColor (readColor u).2).1 = (readColor u).1 :=
  ⟨rfl, rfl, rfl, rfl, rfl, rfl⟩

/-- Claim C7: each field write is independent of the other two fields:
writing `color` leaves `projectionMatrix` and `modelViewMatrix` unchanged,
writing `projectionMatrix` leaves `modelViewMatrix` and `color` unchanged,
and writing `modelViewMatrix` leaves `projectionMatrix` and `color`
unchanged. -/
theorem uniforms_field_writes_independent (u : Uniforms)
    (p m : matrix_float4x4) (c : vector_float4) :
    ((writeColor u c).projectionMatrix = u.projectionMatrix ∧
     (writeColor u c).modelViewMatrix = u.modelViewMatrix) ∧
    ((writeProjectionMatrix u p).modelViewMatrix = u.modelViewMatrix ∧
     (writeProjectionMatrix u p).color = u.color) ∧
    ((writeModelViewMatrix u m).projectionMatrix = u.projectionMatrix ∧
     (writeModelViewMatrix u m).color = u.color) :=
  ⟨⟨rfl, rfl⟩, ⟨rfl, rfl⟩, ⟨rfl, rfl⟩⟩

/-- Claim C8: `Uniforms` has value (copy) semantics: after the assignment
`b = a` the three fields of `b` equal those of `a`, and then mutating any
field of `b` leaves `a` exactly as it was, and mutating any field of `a`
leaves `b` exactly as it was. -/
theorem uniforms_value_semantics (s : TwoVars) (p m : matrix_float4x4)
    (c : vector_float4) :
    ((assignBfromA s).b.projectionMatrix = s.a.projectionMatrix ∧
     (assignBfromA s).b.modelViewMatrix = s.a.modelViewMatrix ∧
     (assignBfromA s).b.color = s.a.color) ∧
    ((mutateB (assignBfromA s) (fun v => writeProjectionMatrix v p)).a
        = (assignBfromA s).a ∧
     (mutateB (assignBfromA s) (fun v => writeModelViewMatrix v m)).a
        = (assignBfromA s).a ∧
     (mutateB (assignBfromA s) (fun v => writeColor v c)).a
        = (assignBfromA s).a) ∧
    ((mutateA (assignBfromA s) (fun v => writeProjectionMatrix v p)).b
        = (assignBfromA s).b ∧
     (mutateA (assignBfromA s) (fun v => writeModelViewMatrix v m)).b
        = (assignBfromA s).b ∧
     (mutateA (assignBfromA s) (fun v => writeColor v c)).b
        = (assignBfromA s).b) :=
  ⟨⟨rfl, rfl, rfl⟩, ⟨rfl, rfl, rfl⟩, ⟨rfl, rfl, rfl⟩⟩

/-- Claim C9: field reads are deterministic: two instances that agree on all
three fields yield equal results when the same field is read from each, and
two successive reads of the same field of the same unmodified instance yield
equal results. -/
theorem uniforms_reads_deterministic (u v : Uniforms)
    (hp : u.projectionMatrix = v.projectionMatrix)
    (hm : u.modelViewMatrix = v.modelViewMatrix)
    (hc : u.color = v.color) :
    (readProjectionMatrix u).1 = (readProjectionMatrix v).1 ∧
    (readModelViewMatrix u).1 = (readModelViewMatrix v).1 ∧
    (readColor u).1 = (readColor v).1 ∧
    (readProjectionMatrix (readProjectionMatrix u).2).1
      = (readProjectionMatrix u).1 ∧
    (readModelViewMatrix (readModelViewMatrix u).2).1
      = (readModelViewMatrix u).1 ∧
    (readColor (readColor u).2).1 = (readColor u).1 :=
  ⟨hp, hm, hc, rfl, rfl, rfl⟩

/-- Witness for claim C9 at the concrete instance `sampleUniforms`, whose
field-for-field equality with itself discharges the hypotheses. -/
theorem uniforms_reads_deterministic_witness :
    (readProjectionMatrix sampleUniforms).1
      = (readProjectionMatrix sampleUniforms).1 ∧
    (readModelViewMatrix sampleUniforms).1
      = (readModelViewMatrix sampleUniforms).1 ∧
    (readColor sampleUniforms).1 = (readColor sampleUniforms).1 ∧
    (readProjectionMatrix (readProjectionMatrix sampleUniforms).2).1
      = (readProjectionMatrix sampleUniforms).1 ∧
    (readModelViewMatrix (readModelViewMatrix sampleUniforms).2).1
      = (readModelViewMatrix sampleUniforms).1 ∧
    (readColor (readColor sampleUniforms).2).1
      = (readColor sampleUniforms).1 :=
  uniforms_reads_deterministic sampleUniforms sampleUniforms rfl rfl rfl
